import Mathlib

/-!
Verification of the ghostmark watermarking tool (src/watermark.py).

The Python source is shallowly embedded below.  Conventions used throughout:

* Image dimensions are natural numbers; pixel channel values are integers
  (the source works on 8-bit channels, so well-formed images carry values
  in [0, 255]; where a proof needs that bound it is an explicit
  hypothesis, `Img.Wf`).
* The source computes its geometry in Python floats and truncates with
  `int()`.  The model uses the exact integer value of each such
  expression.  This is faithful: the factors 0.05, 0.1, 0.15, 0.3 and
  0.025 are within 2^-54 (relatively) of 1/20, 1/10, 3/20, 3/10 and
  1/40, and for every dimension below 2^50 the IEEE-754 double product
  rounds to a value whose truncation equals the truncation of the exact
  rational: when the exact rational n/20 (etc.) is an integer the
  rounding error is under half an ulp so the product rounds to that
  integer exactly, and otherwise the exact value is at least 1/40 away
  from any integer, far beyond the error.  Likewise `(d - wd) * factor`
  for factor in {0, 0.5, 1} is exact in doubles, and Python `int()`
  truncates toward zero, which is `Int.tdiv _ 2` for the 0.5 factor.
  Each definition notes the source expression it computes.
* Opacity stays a rational (the CLI parses a float; its exact value is
  used symbolically only).  Python `int()` on a rational is `pytrunc`.
* Fallible operations return `Option`; the per-file `try/except` of the
  source becomes explicit `Option` plumbing.  Codec-layer collaborators
  that the source calls opaquely (glyph rasterisation via the scaled
  font, Lanczos resampling, palette lookup for mode-P decoding, palette
  quantisation for mode-P encoding) are passed in as explicit function
  parameters, never invented by the model.
* The source mutates `self.config.position` in one place
  (`_calculate_position`); configuration is therefore threaded
  explicitly: every operation that can touch the configuration returns
  the (possibly updated) configuration.
* Pixel-level compositing follows Pillow's C implementation:
  `AlphaComposite.c` for `Image.alpha_composite` (PRECISION_BITS = 7,
  with the `src->a == 0` fast path that returns the destination pixel
  unchanged), the `BLEND`/`MULDIV255`/`SHIFTFORDIV255` macros of
  `Paste.c` for masked `Image.paste`, and the `L24`
  (R*19595 + G*38470 + B*7471 + 0x8000) >> 16 luminance of `convert`.
-/

/-- Color modes handled by `process_image` (src/watermark.py lines 245-281). -/
inductive Mode where
  | RGBA
  | RGB
  | L
  | P
deriving DecidableEq, Repr

/-- One pixel: red, green, blue, alpha channels.  For mode `L` images the
gray value is carried in `r`; for mode `P` the palette index is carried
in `r`; the remaining channels of those modes are 0. -/
structure Pix where
  r : ℤ
  g : ℤ
  b : ℤ
  a : ℤ
deriving DecidableEq, Repr

/-- A raster image: a color mode, dimensions, and a total pixel map
(only arguments below the dimensions are meaningful). -/
structure Img where
  mode : Mode
  width : ℕ
  height : ℕ
  px : ℕ → ℕ → Pix

/-- 8-bit channel bounds. -/
def Pix.InRange (p : Pix) : Prop :=
  0 ≤ p.r ∧ p.r ≤ 255 ∧ 0 ≤ p.g ∧ p.g ≤ 255 ∧
  0 ≤ p.b ∧ p.b ≤ 255 ∧ 0 ≤ p.a ∧ p.a ≤ 255

instance (p : Pix) : Decidable p.InRange := by
  unfold Pix.InRange; infer_instance

/-- Every pixel of the image is an 8-bit pixel. -/
def Img.Wf (img : Img) : Prop := ∀ x y, (img.px x y).InRange

/-- The configuration record built by `main()` from the CLI arguments
(src/watermark.py lines 328-385).  Folder paths and output filename
prefixing are driver glue not used by any modelled operation and are
omitted.  `text = ""` models both an empty and an absent (`None`) text,
and likewise for `image_path`: Python truthiness treats both alike. -/
structure Config where
  text : String
  image_path : String
  position : String
  opacity : ℚ
  size : String
  pixel_size : ℤ
  text_color : String
deriving DecidableEq, Repr

/-- Python `int()` applied to a real value: truncation toward zero. -/
def pytrunc (q : ℚ) : ℤ := if 0 ≤ q then q.floor else q.ceil

/-- `Watermarker.POSITIONS` (src/watermark.py lines 50-60): anchor name ↦
(x factor, y factor, horizontal hint, vertical hint).  The axis factors
0, 0.5, 1 are stored doubled (0, 1, 2) so that the model stays in exact
integer arithmetic; the alignment hints are only for rendering backends
and are unused, as in the source. -/
def POSITIONS : List (String × ℕ × ℕ × String × String) :=
  [("top-left", (0, 0, "left", "top")),
   ("top-center", (1, 0, "center", "top")),
   ("top-right", (2, 0, "right", "top")),
   ("center-left", (0, 1, "left", "middle")),
   ("center", (1, 1, "center", "middle")),
   ("center-right", (2, 1, "right", "middle")),
   ("bottom-left", (0, 2, "left", "bottom")),
   ("bottom-center", (1, 2, "center", "bottom")),
   ("bottom-right", (2, 2, "right", "bottom"))]

/-- `Watermarker.SIZE_FACTORS` (src/watermark.py lines 63-67), each
factor as an exact fraction: small 0.05 = 1/20, medium 0.1 = 1/10,
large 0.15 = 3/20. -/
def SIZE_FACTORS : List (String × ℕ × ℕ) :=
  [("small", (1, 20)), ("medium", (1, 10)), ("large", (3, 20))]

/-- `Watermarker.COLORS` (src/watermark.py lines 70-83). -/
def COLORS : List (String × (ℤ × ℤ × ℤ)) :=
  [("white", (255, 255, 255)),
   ("black", (0, 0, 0)),
   ("red", (255, 0, 0)),
   ("green", (0, 255, 0)),
   ("blue", (0, 0, 255)),
   ("yellow", (255, 255, 0)),
   ("cyan", (0, 255, 255)),
   ("magenta", (255, 0, 255)),
   ("gray", (128, 128, 128)),
   ("orange", (255, 165, 0)),
   ("purple", (128, 0, 128)),
   ("pink", (255, 192, 203))]

/-- `Watermarker._calculate_size` (src/watermark.py lines 107-116).
`int(min_dimension * factor)` is the floor `min_dimension * num / den`
(see the header note); the fallback factor for an unrecognized size
name is `0.3 = 3/10`.  The source's `hasattr` check is always true for
configurations built by `main()` (argparse always defines the field),
so the model keeps the field unconditionally. -/
def calculate_size (cfg : Config) (w h : ℕ) : ℤ :=
  if 0 < cfg.pixel_size then cfg.pixel_size
  else
    let f := (SIZE_FACTORS.lookup cfg.size).getD (3, 10)
    (min w h * f.1 / f.2 : ℕ)

/-- `Watermarker._calculate_position` (src/watermark.py lines 118-150).
Axis factors are doubled (see `POSITIONS`), so the base coordinate
`int((dimension - watermark_dimension) * factor)` is
`Int.tdiv ((d - wd) * f2) 2`, and the margins
`int(min(w, h) * 0.05)` and `int(min(w, h) * 0.05 * 0.5)` are
`min w h / 20` and `min w h / 40` (see the header note).  Returns the
pixel position together with the configuration, which the source
mutates (`self.config.position = "bottom-right"`) when the configured
anchor is unrecognized. -/
def calculate_position (cfg : Config) (w h : ℕ) (ww wh : ℤ) :
    (ℤ × ℤ) × Config :=
  let cfg := if (POSITIONS.lookup cfg.position).isNone then
    { cfg with position := "bottom-right" } else cfg
  let f := (POSITIONS.lookup cfg.position).getD (2, 2, "right", "bottom")
  let xf := f.1
  let yf := f.2.1
  let margin : ℤ :=
    if xf = 0 ∨ xf = 2 ∨ yf = 0 ∨ yf = 2 then (min w h / 20 : ℕ)
    else (min w h / 40 : ℕ)
  let x : ℤ := (((w : ℤ) - ww) * xf).tdiv 2
  let y : ℤ := (((h : ℤ) - wh) * yf).tdiv 2
  let x : ℤ := if xf = 0 then margin
    else if xf = 2 then (w : ℤ) - ww - margin else x
  let y : ℤ := if yf = 0 then margin
    else if yf = 2 then (h : ℤ) - wh - margin else y
  ((x, y), cfg)

/-- Python `str.lower` on one character, for the ASCII range the source's
color names and hex codes live in. -/
def charLower (c : Char) : Char :=
  if 65 ≤ c.toNat ∧ c.toNat ≤ 90 then Char.ofNat (c.toNat + 32) else c

/-- Python `str.lower` (`self.config.text_color.lower()`, line 168). -/
def strLower (s : String) : String := ⟨s.data.map charLower⟩

/-- Python `text_color.startswith('#')` (line 170). -/
def startsHash (s : String) : Bool :=
  match s.data with
  | '#' :: _ => true
  | _ => false

/-- ASCII whitespace stripped by Python `int(str, 16)`. -/
def isPyWs (c : Char) : Bool :=
  c = ' ' ∨ c = '\t' ∨ c = '\n' ∨ c = '\x0b' ∨ c = '\x0c' ∨ c = '\r'

/-- Value of one hexadecimal digit. -/
def hexVal (c : Char) : Option ℤ :=
  if '0' ≤ c ∧ c ≤ '9' then some ((c.toNat : ℤ) - 48)
  else if 'a' ≤ c ∧ c ≤ 'f' then some ((c.toNat : ℤ) - 87)
  else if 'A' ≤ c ∧ c ≤ 'F' then some ((c.toNat : ℤ) - 55)
  else none

/-- Python `int(s, 16)` on a two-character string `s = ⟨a, b⟩`, as used on
the slices of lines 173-179: surrounding ASCII whitespace is stripped, a
single leading sign is allowed, underscores and a bare sign or empty
remainder fail with `ValueError` (`none`).  (Python additionally accepts
non-ASCII Unicode digits and whitespace, which no ASCII color string can
contain.) -/
def pyInt2 (a b : Char) : Option ℤ :=
  if isPyWs a ∧ isPyWs b then none
  else if isPyWs a then hexVal b
  else if isPyWs b then hexVal a
  else if a = '+' then hexVal b
  else if a = '-' then (hexVal b).map (fun v => -v)
  else match hexVal a, hexVal b with
    | some x, some y => some (16 * x + y)
    | _, _ => none

/-- Hex parsing of lines 171-180: `#RGB` duplicates each nibble
(`int(tc[i] + tc[i], 16)`), `#RRGGBB` parses three two-character slices;
the first failing slice raises `ValueError` (`none`). -/
def hex_triple (tc : String) : Option (ℤ × ℤ × ℤ) :=
  match tc.data with
  | ['#', a, b, c] =>
    match pyInt2 a a, pyInt2 b b, pyInt2 c c with
    | some r, some g, some bv => some (r, g, bv)
    | _, _, _ => none
  | ['#', a, b, c, d, e, f] =>
    match pyInt2 a b, pyInt2 c d, pyInt2 e f with
    | some r, some g, some bv => some (r, g, bv)
    | _, _, _ => none
  | _ => none

/-- Color resolution on the already-lowercased string: the body of
src/watermark.py lines 166-186.  A `#`-prefixed string of length 4 or 7
is parsed as hex; on failure (and for every other string) the name is
looked up in `COLORS` with default white `(255, 255, 255)`. -/
def resolve_lowered (tc : String) : ℤ × ℤ × ℤ :=
  if startsHash tc ∧ (tc.length = 4 ∨ tc.length = 7) then
    match hex_triple tc with
    | some c => c
    | none => (COLORS.lookup tc).getD (255, 255, 255)
  else (COLORS.lookup tc).getD (255, 255, 255)

/-- The Color Resolver: src/watermark.py lines 166-186 (inline in
`add_text_watermark`), beginning with `self.config.text_color.lower()`. -/
def resolve_color (s : String) : ℤ × ℤ × ℤ := resolve_lowered (strLower s)

/-- Pillow's `SHIFTFORDIV255(a) = (((a) >> 8) + (a)) >> 8`. -/
def shiftForDiv255 (t : ℤ) : ℤ := (t / 256 + t) / 256

/-- Pillow's `MULDIV255(a, b) = SHIFTFORDIV255(a * b + 128)`, the rounded
`a * b / 255`. -/
def muldiv255 (a b : ℤ) : ℤ := shiftForDiv255 (a * b + 128)

/-- Pillow's `BLEND(mask, in1, in2)` from Paste.c: blend the incoming
value `src` over the existing value `dst` through `mask`. -/
def blend255 (mask dst src : ℤ) : ℤ :=
  muldiv255 dst (255 - mask) + muldiv255 src mask

/-- One pixel of `Image.alpha_composite` (Pillow AlphaComposite.c,
PRECISION_BITS = 7): source pixel over destination pixel.  A fully
transparent source pixel leaves the destination pixel unchanged (the
`src->a == 0` fast path). -/
def alpha_composite_pix (dst src : Pix) : Pix :=
  if src.a = 0 then dst
  else
    let blend := dst.a * (255 - src.a)
    let outa255 := src.a * 255 + blend
    let coef1 := src.a * 255 * 255 * 128 / outa255
    let coef2 := 255 * 128 - coef1
    { r := shiftForDiv255 (src.r * coef1 + dst.r * coef2 + 128 * 128) / 128,
      g := shiftForDiv255 (src.g * coef1 + dst.g * coef2 + 128 * 128) / 128,
      b := shiftForDiv255 (src.b * coef1 + dst.b * coef2 + 128 * 128) / 128,
      a := shiftForDiv255 (outa255 + 128) }

/-- `image.convert('RGBA')`: full-color-with-alpha working copy.  RGB and
L gain an opaque alpha; a palette image is decoded through the palette
`pal` supplied by the codec layer. -/
def convert_to_rgba (pal : ℤ → Pix) (img : Img) : Img :=
  match img.mode with
  | Mode.RGBA => img
  | Mode.RGB =>
    { mode := Mode.RGBA, width := img.width, height := img.height,
      px := fun x y => { img.px x y with a := 255 } }
  | Mode.L =>
    { mode := Mode.RGBA, width := img.width, height := img.height,
      px := fun x y => let v := (img.px x y).r; ⟨v, v, v, 255⟩ }
  | Mode.P =>
    { mode := Mode.RGBA, width := img.width, height := img.height,
      px := fun x y => pal ((img.px x y).r) }

/-- The mode restoration of `process_image` (src/watermark.py lines
266-275): RGB composites onto an opaque white background using the
working image's alpha as paste mask; L converts by Pillow's luminance
formula; P quantises through the codec layer's `quantP`. -/
def convert_back (quantP : Pix → ℤ) (m : Mode) (img : Img) : Img :=
  match m with
  | Mode.RGBA => img
  | Mode.RGB =>
    { mode := Mode.RGB, width := img.width, height := img.height,
      px := fun x y =>
        let p := img.px x y
        ⟨blend255 p.a 255 p.r, blend255 p.a 255 p.g, blend255 p.a 255 p.b,
          255⟩ }
  | Mode.L =>
    { mode := Mode.L, width := img.width, height := img.height,
      px := fun x y =>
        let p := img.px x y
        ⟨(p.r * 19595 + p.g * 38470 + p.b * 7471 + 32768) / 65536, 0, 0, 0⟩ }
  | Mode.P =>
    { mode := Mode.P, width := img.width, height := img.height,
      px := fun x y => ⟨quantP (img.px x y), 0, 0, 0⟩ }

/-- `Watermarker.add_text_watermark` (src/watermark.py lines 152-197).
The glyph raster of the scaled font is abstracted into the codec-layer
coverage map `cov` (coverage 0..255 at each offset inside the drawn
text) together with the measured bounding box `text_w × text_h`
(`draw.textbbox`); the overlay holds the fill color blended into the
transparent canvas through that coverage, and is alpha-composited over
the RGBA-converted source. -/
def add_text_watermark (cfg : Config) (pal : ℤ → Pix) (cov : ℕ → ℕ → ℤ)
    (text_w text_h : ℤ) (img : Img) : Img × Config :=
  let _font_size := calculate_size cfg img.width img.height
  let p := calculate_position cfg img.width img.height text_w text_h
  let pos := p.1
  let cfg := p.2
  let color := resolve_color cfg.text_color
  let fillA := pytrunc (255 * cfg.opacity)
  let overlay_px : ℕ → ℕ → Pix := fun x y =>
    let c : ℤ := if pos.1 ≤ (x : ℤ) ∧ pos.2 ≤ (y : ℤ) then
      cov ((x : ℤ) - pos.1).toNat ((y : ℤ) - pos.2).toNat else 0
    { r := blend255 c 0 color.1, g := blend255 c 0 color.2.1,
      b := blend255 c 0 color.2.2, a := blend255 c 0 fillA }
  let base := if img.mode ≠ Mode.RGBA then convert_to_rgba pal img else img
  ({ mode := Mode.RGBA, width := img.width, height := img.height,
     px := fun x y => alpha_composite_pix (base.px x y) (overlay_px x y) },
   cfg)

/-- The aspect-preserving resize target of `add_image_watermark`
(src/watermark.py lines 207-216): `aspect_ratio = ow / oh`; if
`aspect_ratio > 1` (iff `oh < ow` when `oh ≠ 0`) the result is
`(base_size, int(base_size / aspect_ratio))`, else
`(int(base_size * aspect_ratio), base_size)`; the truncated quotients
are `Int.tdiv` of the exact products (see the header note). -/
def resize_dims (base_size : ℤ) (ow oh : ℕ) : ℤ × ℤ :=
  if oh < ow then (base_size, (base_size * oh).tdiv ow)
  else ((base_size * ow).tdiv oh, base_size)

/-- `Watermarker.add_image_watermark` (src/watermark.py lines 199-243).
The watermark asset decode (`Image.open`) is `asset`; `none` is any
failure to read or decode it, taken by the source's `except` to return
the source image unchanged, as is the `ZeroDivisionError` of a
zero-height asset.  Lanczos resampling is the codec-layer `resizeF`
(resized pixel map of the given watermark at the given target size).
When opacity < 1 the alpha band is scaled by the opacity
(`ImageEnhance.Brightness(alpha).enhance(opacity)`, which truncates
`opacity * alpha` per pixel).  The watermark is pasted over an
RGBA-converted copy of the source using its own alpha as mask
(Paste.c `BLEND`). -/
def add_image_watermark (cfg : Config) (pal : ℤ → Pix)
    (resizeF : Img → ℕ → ℕ → ℕ → ℕ → Pix) (asset : Option Img)
    (img : Img) : Img × Config :=
  match asset with
  | none => (img, cfg)
  | some wm0 =>
    let watermark := convert_to_rgba pal wm0
    if watermark.height = 0 then (img, cfg)
    else
      let base_size := calculate_size cfg img.width img.height
      let nd := resize_dims base_size watermark.width watermark.height
      let new_w := nd.1.toNat
      let new_h := nd.2.toNat
      let wmR : Img := ⟨Mode.RGBA, new_w, new_h, resizeF watermark new_w new_h⟩
      let wm2 : Img := if cfg.opacity < 1 then
          { wmR with px := fun x y =>
              { wmR.px x y with a := pytrunc (cfg.opacity * ((wmR.px x y).a : ℚ)) } }
        else wmR
      let p := calculate_position cfg img.width img.height nd.1 nd.2
      let pos := p.1
      let cfg := p.2
      let base := if img.mode ≠ Mode.RGBA then convert_to_rgba pal img else img
      ({ mode := Mode.RGBA, width := img.width, height := img.height,
         px := fun x y =>
           if pos.1 ≤ (x : ℤ) ∧ (x : ℤ) < pos.1 + new_w ∧
               pos.2 ≤ (y : ℤ) ∧ (y : ℤ) < pos.2 + new_h then
             let s := wm2.px ((x : ℤ) - pos.1).toNat ((y : ℤ) - pos.2).toNat
             let d := base.px x y
             ⟨blend255 s.a d.r s.r, blend255 s.a d.g s.g,
               blend255 s.a d.b s.b, blend255 s.a d.a s.a⟩
           else base.px x y }, cfg)

/-- `Watermarker.process_image` (src/watermark.py lines 245-281).
`src = none` is a failure to open/decode the source file, caught by the
outer `except` which returns `None`.  The source records the original
mode, converts the working copy to RGBA, dispatches on the configured
text / image path (Python truthiness: empty means absent), and restores
the original mode after watermarking; the no-watermark branch returns
the working copy as-is. -/
def process_image (cfg : Config) (pal : ℤ → Pix) (quantP : Pix → ℤ)
    (cov : ℕ → ℕ → ℤ) (text_w text_h : ℤ)
    (resizeF : Img → ℕ → ℕ → ℕ → ℕ → Pix) (asset : Option Img)
    (src : Option Img) : Option Img × Config :=
  match src with
  | none => (none, cfg)
  | some image =>
    let original_mode := image.mode
    let image := if image.mode ≠ Mode.RGBA then convert_to_rgba pal image
      else image
    if cfg.text ≠ "" then
      let r := add_text_watermark cfg pal cov text_w text_h image
      (some (convert_back quantP original_mode r.1), r.2)
    else if cfg.image_path ≠ "" then
      let r := add_image_watermark cfg pal resizeF asset image
      (some (convert_back quantP original_mode r.1), r.2)
    else (some image, cfg)

/-- `Watermarker.process_directory` (src/watermark.py lines 283-325),
over the already-enumerated list of supported files (`none` marks a file
whose decode fails inside `process_image`).  A `some` result is saved
(collected in the output list) and counted as processed; a `none`
result is counted as an error; the run always continues to the next
file.  Output naming and the save call's own error handling are
filesystem glue and not modelled. -/
def process_directory (cfg : Config) (pal : ℤ → Pix) (quantP : Pix → ℤ)
    (cov : ℕ → ℕ → ℤ) (text_w text_h : ℤ)
    (resizeF : Img → ℕ → ℕ → ℕ → ℕ → Pix) (asset : Option Img)
    (files : List (Option Img)) : ℕ × ℕ × List Img × Config :=
  files.foldl
    (fun acc file =>
      let r := process_image acc.2.2.2 pal quantP cov text_w text_h resizeF
        asset file
      match r.1 with
      | some w => (acc.1 + 1, acc.2.1, acc.2.2.1 ++ [w], r.2)
      | none => (acc.1, acc.2.1 + 1, acc.2.2.1, r.2))
    (0, 0, [], cfg)

/-- Position formula on one axis exactly as claim C6 states it, with
`round`: margin `round(min(w, h) * 0.05)` on an edge-anchored axis
(factor 0 or 1, stored doubled as 0 or 2), base position
`round((dimension - watermark_dimension) * factor)` on a centered axis.
Written to be compared with `calculate_position`. -/
def claim_round_axis (mn d : ℕ) (wd : ℤ) (f2 : ℕ) : ℤ :=
  if f2 = 0 then round ((mn : ℚ) * 0.05)
  else if f2 = 2 then (d : ℤ) - wd - round ((mn : ℚ) * 0.05)
  else round (((d : ℚ) - (wd : ℚ)) * 0.5)

/-- Position formula on one axis as claim C6 holds after amendment:
the margins and the centered base position are truncated, not rounded
(`margin = int(min(w, h) * 0.05)`, base `int((d - wd) * 0.5)`). -/
def amended_axis (mn d : ℕ) (wd : ℤ) (f2 : ℕ) : ℤ :=
  if f2 = 0 then (mn / 20 : ℕ)
  else if f2 = 2 then (d : ℤ) - wd - (mn / 20 : ℕ)
  else ((d : ℤ) - wd).tdiv 2

/-- Resize target exactly as claim C9 states it: the longer side maps to
the computed size and the shorter side is rounded to the nearest
integer and clamped to at least 1.  Written to be compared with
`resize_dims`. -/
def claim_resize (s : ℤ) (w h : ℕ) : ℤ × ℤ :=
  if h < w then (s, max 1 (round ((s * h : ℚ) / (w : ℚ))))
  else (max 1 (round ((s * w : ℚ) / (h : ℚ))), s)

/-- Per-file result of a run in which every watermark application leaves
the working image untouched: the RGBA working copy converted back to
the original mode (what `process_image` returns when
`add_image_watermark` hits its `except` branch). -/
def no_watermark_result (pal : ℤ → Pix) (quantP : Pix → ℤ) (img : Img) :
    Img :=
  convert_back quantP img.mode
    (if img.mode ≠ Mode.RGBA then convert_to_rgba pal img else img)

/-- Concrete 1×1 RGBA test image. -/
def img1 : Img := ⟨Mode.RGBA, 1, 1, fun _ _ => ⟨10, 20, 30, 40⟩⟩

/-- Concrete 1×1 RGB test image. -/
def imgRGB : Img := ⟨Mode.RGB, 1, 1, fun _ _ => ⟨10, 20, 30, 255⟩⟩

/-- Concrete codec-layer palette: every index decodes to opaque black. -/
def pal0 : ℤ → Pix := fun _ => ⟨0, 0, 0, 255⟩

/-- Concrete codec-layer palette quantiser. -/
def quant0 : Pix → ℤ := fun _ => 0

/-- Concrete glyph coverage map: full coverage everywhere. -/
def cov0 : ℕ → ℕ → ℤ := fun _ _ => 255

/-- Concrete codec-layer resampler: constant white. -/
def resize0 : Img → ℕ → ℕ → ℕ → ℕ → Pix := fun _ _ _ _ _ => ⟨255, 255, 255, 255⟩

/-- Concrete configuration: default text watermark at bottom-right. -/
def cfgBR : Config := ⟨"@ghostmark", "", "bottom-right", 0, "small", 0, "#000000"⟩

/-- Concrete configuration: text watermark with opacity 0. -/
def cfgOp0 : Config := ⟨"@ghostmark", "", "bottom-right", 0, "small", 0, "#000000"⟩

/-- Concrete configuration: image watermark whose asset fails to decode. -/
def cfgAsset : Config := ⟨"", "missing.png", "bottom-right", 0.8, "small", 0, "#000000"⟩

/-- Concrete configuration: both a text and an image path configured. -/
def cfgBoth : Config := ⟨"@ghostmark", "logo.png", "bottom-right", 0.8, "small", 0, "#000000"⟩

/-! ### Arithmetic helper lemmas -/

theorem pytrunc_zero : pytrunc 0 = 0 := rfl

theorem muldiv255_zero_right (a : ℤ) : muldiv255 a 0 = 0 := by
  unfold muldiv255 shiftForDiv255
  rw [mul_zero]
  decide

theorem muldiv255_zero_left (b : ℤ) : muldiv255 0 b = 0 := by
  unfold muldiv255 shiftForDiv255
  rw [zero_mul]
  decide

theorem muldiv255_full (a : ℤ) (h0 : 0 ≤ a) (h1 : a ≤ 255) :
    muldiv255 a 255 = a := by
  unfold muldiv255 shiftForDiv255
  omega

theorem blend255_transparent (m : ℤ) : blend255 m 0 0 = 0 := by
  unfold blend255
  rw [muldiv255_zero_left, muldiv255_zero_left]
  decide

theorem blend255_mask_zero (d s : ℤ) (h0 : 0 ≤ d) (h1 : d ≤ 255) :
    blend255 0 d s = d := by
  unfold blend255
  rw [sub_zero, muldiv255_full d h0 h1, muldiv255_zero_right, add_zero]

theorem tdiv2_nonneg_le (a : ℤ) (h : 0 ≤ a) : 0 ≤ a.tdiv 2 ∧ a.tdiv 2 ≤ a := by
  rw [Int.tdiv_eq_ediv h (by decide)]
  omega

/-! ### String helper lemmas -/

theorem charLower_toNat (c : Char) (h : 65 ≤ c.toNat ∧ c.toNat ≤ 90) :
    (charLower c).toNat = c.toNat + 32 := by
  have hv : (c.toNat + 32).isValidChar := Or.inl (by omega)
  unfold charLower
  rw [if_pos h]
  unfold Char.ofNat
  rw [dif_pos hv]
  rfl

theorem charLower_idem (c : Char) : charLower (charLower c) = charLower c := by
  by_cases h : 65 ≤ c.toNat ∧ c.toNat ≤ 90
  · have ht := charLower_toNat c h
    have hn : ¬(65 ≤ (charLower c).toNat ∧ (charLower c).toNat ≤ 90) := by
      omega
    generalize charLower c = d at hn ⊢
    unfold charLower
    rw [if_neg hn]
  · have h1 : charLower c = c := by unfold charLower; rw [if_neg h]
    rw [h1, h1]

theorem strLower_idem (s : String) : strLower (strLower s) = strLower s := by
  unfold strLower
  simp [List.map_map, Function.comp_def, charLower_idem]

theorem COLORS_lookup_hash (t : String) (ht : startsHash t = true) :
    COLORS.lookup t = none := by
  have key : ∀ u : String, startsHash u = false → (t == u) = false := by
    intro u hu
    rw [beq_eq_false_iff_ne]
    intro he
    rw [he, hu] at ht
    exact absurd ht (by decide)
  simp only [COLORS, List.lookup,
    key "white" (by decide), key "black" (by decide), key "red" (by decide),
    key "green" (by decide), key "blue" (by decide), key "yellow" (by decide),
    key "cyan" (by decide), key "magenta" (by decide), key "gray" (by decide),
    key "orange" (by decide), key "purple" (by decide), key "pink" (by decide)]

/-! ### Claim C1 -/

/-- Claim C1: `process_image` is claimed to preserve the input's color
mode in every successful case, including the Skipped one (no text and
no image path configured), where the image is claimed to be returned
unchanged.  The code contradicts this: the Skipped branch returns the
working copy after its conversion to RGBA, so an RGB input comes back
in mode RGBA, not in its original mode. -/
theorem skipped_branch_returns_rgba :
    ((process_image ⟨"", "", "bottom-right", 0, "small", 0, "#000000"⟩
        pal0 quant0 cov0 0 0 resize0 none (some imgRGB)).1.map Img.mode)
      = some Mode.RGBA ∧ imgRGB.mode = Mode.RGB := by
  decide

/-! ### Claim C2 -/

/-- Claim C2 (counterexample): for the edge anchor bottom-right on a
100×100 image and a 200×200 watermark, the returned x position is
-105 < 0, so the position calculation does not keep every watermark
bounding box inside the image bounds. -/
theorem position_outside_bounds_cex :
    (calculate_position ⟨"@ghostmark", "", "bottom-right", 0, "small", 0,
        "#000000"⟩ 100 100 200 200).1 = (-105, -105) ∧ ¬((0 : ℤ) ≤ -105) := by
  decide

/-! ### Claim C8 -/

/-- Claim C8 (counterexample): the configuration is not read-only.
`_calculate_position` overwrites the position field with "bottom-right"
when it holds an unrecognized anchor name ("oops" here). -/
theorem config_position_mutated_cex :
    (calculate_position ⟨"@ghostmark", "", "oops", 0, "small", 0,
        "#000000"⟩ 100 100 10 10).2.position = "bottom-right" ∧
    ¬("bottom-right" = "oops") := by
  decide

/-! ### Claim C5 -/

theorem nat_div_cast_floor (m num den : ℕ) :
    ((m * num / den : ℕ) : ℤ) = ⌊(m : ℚ) * ((num : ℚ) / (den : ℚ))⌋ := by
  have h1 : (m : ℚ) * ((num : ℚ) / (den : ℚ))
      = ((m * num : ℤ) : ℚ) / ((den : ℕ) : ℚ) := by
    push_cast
    ring
  rw [h1, Rat.floor_intCast_div_natCast, Int.ofNat_tdiv,
    Int.tdiv_eq_ediv (by positivity) (by positivity)]
  push_cast
  ring

/-- Claim C5: the computed watermark size is the configured pixel size
when that is positive; otherwise it is floor(min(w, h) * factor) with
factor 0.05 for "small", 0.10 for "medium", 0.15 for "large", and 0.3
for any unrecognized size name. -/
theorem size_formula (cfg : Config) (w h : ℕ) :
    calculate_size cfg w h =
      if 0 < cfg.pixel_size then cfg.pixel_size
      else if cfg.size = "small" then ⌊(min w h : ℚ) * 0.05⌋
      else if cfg.size = "medium" then ⌊(min w h : ℚ) * 0.1⌋
      else if cfg.size = "large" then ⌊(min w h : ℚ) * 0.15⌋
      else ⌊(min w h : ℚ) * 0.3⌋ := by
  unfold calculate_size
  by_cases hp : 0 < cfg.pixel_size
  · rw [if_pos hp, if_pos hp]
  · rw [if_neg hp, if_neg hp]
    by_cases h1 : cfg.size = "small"
    · rw [h1]
      show ((min w h * 1 / 20 : ℕ) : ℤ) = ⌊(min w h : ℚ) * 0.05⌋
      rw [nat_div_cast_floor (min w h) 1 20]
      norm_num
    · by_cases h2 : cfg.size = "medium"
      · rw [h2, if_neg (by decide : ¬("medium" = "small"))]
        show ((min w h * 1 / 10 : ℕ) : ℤ) = ⌊(min w h : ℚ) * 0.1⌋
        rw [nat_div_cast_floor (min w h) 1 10]
        norm_num
      · by_cases h3 : cfg.size = "large"
        · rw [h3, if_neg (by decide : ¬("large" = "small")),
            if_neg (by decide : ¬("large" = "medium"))]
          show ((min w h * 3 / 20 : ℕ) : ℤ) = ⌊(min w h : ℚ) * 0.15⌋
          rw [nat_div_cast_floor (min w h) 3 20]
          norm_num
        · have k1 : (cfg.size == "small") = false := beq_eq_false_iff_ne.mpr h1
          have k2 : (cfg.size == "medium") = false := beq_eq_false_iff_ne.mpr h2
          have k3 : (cfg.size == "large") = false := beq_eq_false_iff_ne.mpr h3
          rw [if_neg h1, if_neg h2, if_neg h3]
          simp only [SIZE_FACTORS, List.lookup, k1, k2, k3, Option.getD_none]
          show ((min w h * 3 / 10 : ℕ) : ℤ) = ⌊(min w h : ℚ) * 0.3⌋
          rw [nat_div_cast_floor (min w h) 3 10]
          norm_num

/-- Claim C2 (amended): for every image, every edge anchor (an anchor
with an axis factor 0 or 1), and every watermark whose dimensions fit
inside the image together with the edge margin
(`ww + int(min(w, h) * 0.05) ≤ w` and likewise for the height), the
returned position keeps the entire watermark bounding box inside the
image bounds: x and y are never negative and x + ww and y + wh never
exceed the width/height.  (The original claim, quantified over all
watermark sizes, is refuted by `position_outside_bounds_cex`: an
oversized watermark is pushed to negative coordinates.) -/
theorem calculate_position_eval (cfg : Config) (w h : ℕ) (ww wh : ℤ)
    (xf yf : ℕ) (ha hv : String)
    (hl : POSITIONS.lookup cfg.position = some (xf, yf, ha, hv)) :
    calculate_position cfg w h ww wh =
      ((if xf = 0 then ((min w h / 20 : ℕ) : ℤ)
          else if xf = 2 then (w : ℤ) - ww - ((min w h / 20 : ℕ) : ℤ)
          else (((w : ℤ) - ww) * xf).tdiv 2,
        if yf = 0 then ((min w h / 20 : ℕ) : ℤ)
          else if yf = 2 then (h : ℤ) - wh - ((min w h / 20 : ℕ) : ℤ)
          else (((h : ℤ) - wh) * yf).tdiv 2), cfg) := by
  unfold calculate_position
  simp only [hl, Option.isNone_some, Bool.false_eq_true, if_false,
    Option.getD_some]
  split_ifs <;> first | rfl | omega

theorem position_inside_bounds (cfg : Config) (w h : ℕ) (ww wh : ℤ)
    (hedge : cfg.position ∈ ["top-left", "top-center", "top-right",
      "center-left", "center-right", "bottom-left", "bottom-center",
      "bottom-right"])
    (hw : ww + ((min w h / 20 : ℕ) : ℤ) ≤ (w : ℤ))
    (hh : wh + ((min w h / 20 : ℕ) : ℤ) ≤ (h : ℤ)) :
    0 ≤ (calculate_position cfg w h ww wh).1.1 ∧
    (calculate_position cfg w h ww wh).1.1 + ww ≤ (w : ℤ) ∧
    0 ≤ (calculate_position cfg w h ww wh).1.2 ∧
    (calculate_position cfg w h ww wh).1.2 + wh ≤ (h : ℤ) := by
  have hm : (0 : ℤ) ≤ ((min w h / 20 : ℕ) : ℤ) := by positivity
  have hx := tdiv2_nonneg_le ((w : ℤ) - ww) (by omega)
  have hy := tdiv2_nonneg_le ((h : ℤ) - wh) (by omega)
  simp only [List.mem_cons, List.not_mem_nil, or_false] at hedge
  rcases hedge with hp|hp|hp|hp|hp|hp|hp|hp
  · rw [calculate_position_eval cfg w h ww wh 0 0 "left" "top"
      (by rw [hp]; decide)]
    norm_num
    omega
  · rw [calculate_position_eval cfg w h ww wh 1 0 "center" "top"
      (by rw [hp]; decide)]
    norm_num
    omega
  · rw [calculate_position_eval cfg w h ww wh 2 0 "right" "top"
      (by rw [hp]; decide)]
    norm_num
    omega
  · rw [calculate_position_eval cfg w h ww wh 0 1 "left" "middle"
      (by rw [hp]; decide)]
    norm_num
    omega
  · rw [calculate_position_eval cfg w h ww wh 2 1 "right" "middle"
      (by rw [hp]; decide)]
    norm_num
    omega
  · rw [calculate_position_eval cfg w h ww wh 0 2 "left" "bottom"
      (by rw [hp]; decide)]
    norm_num
    omega
  · rw [calculate_position_eval cfg w h ww wh 1 2 "center" "bottom"
      (by rw [hp]; decide)]
    norm_num
    omega
  · rw [calculate_position_eval cfg w h ww wh 2 2 "right" "bottom"
      (by rw [hp]; decide)]
    norm_num
    omega

/-- Witness for `position_inside_bounds` at a 100×100 image, anchor
bottom-right, watermark 10×10. -/
theorem position_inside_bounds_witness :
    0 ≤ (calculate_position cfgBR 100 100 10 10).1.1 ∧
    (calculate_position cfgBR 100 100 10 10).1.1 + 10 ≤ (100 : ℤ) ∧
    0 ≤ (calculate_position cfgBR 100 100 10 10).1.2 ∧
    (calculate_position cfgBR 100 100 10 10).1.2 + 10 ≤ (100 : ℤ) :=
  position_inside_bounds cfgBR 100 100 10 10 (by decide) (by decide)
    (by decide)

/-! ### Claim C6 -/

theorem POSITIONS_factors (pos : String) (xf yf : ℕ) (ha hv : String)
    (hl : POSITIONS.lookup pos = some (xf, yf, ha, hv)) :
    (xf = 0 ∨ xf = 1 ∨ xf = 2) ∧ (yf = 0 ∨ yf = 1 ∨ yf = 2) := by
  unfold POSITIONS at hl
  simp only [List.lookup] at hl
  repeat' split at hl
  all_goals simp_all
  all_goals omega

/-- Claim C6 (counterexample): the position margins are truncated, not
rounded: on a 30×30 image (30 * 0.05 = 1.5) the top-left anchor places
a 10×10 watermark at (1, 1), while the claimed round-based per-axis
formula gives margin round(1.5) = 2. -/
theorem position_round_cex :
    (calculate_position ⟨"@ghostmark", "", "top-left", 0, "small", 0,
        "#000000"⟩ 30 30 10 10).1 = (1, 1) ∧
    claim_round_axis 30 30 10 0 = 2 ∧ ¬((1 : ℤ) = 2) := by
  refine ⟨by decide, ?_, by decide⟩
  unfold claim_round_axis
  norm_num [round_eq]

/-- Claim C6 (amended): for every recognized anchor the position is
computed per axis: an axis factor 0 gives position = margin, factor 1
gives dimension - watermark_dimension - margin, factor 0.5 leaves the
truncated base position int((dimension - watermark_dimension) * 0.5)
unmodified, where margin = int(min(w, h) * 0.05) — truncation
throughout, not rounding (a centered-axes-only anchor computes the
smaller margin int(min(w, h) * 0.025) but never applies it). -/
theorem position_axis_formula (cfg : Config) (w h : ℕ) (ww wh : ℤ)
    (xf yf : ℕ) (ha hv : String)
    (hl : POSITIONS.lookup cfg.position = some (xf, yf, ha, hv)) :
    calculate_position cfg w h ww wh =
      ((amended_axis (min w h) w ww xf, amended_axis (min w h) h wh yf),
        cfg) := by
  obtain ⟨hxf, hyf⟩ := POSITIONS_factors cfg.position xf yf ha hv hl
  rw [calculate_position_eval cfg w h ww wh xf yf ha hv hl]
  unfold amended_axis
  simp only [Prod.mk.injEq, and_true]
  refine ⟨?_, ?_⟩
  · rcases hxf with hx | hx | hx <;> subst hx <;> norm_num
  · rcases hyf with hy | hy | hy <;> subst hy <;> norm_num

/-- Witness for `position_axis_formula`: bottom-right anchor on a
100×100 image with a 10×10 watermark. -/
theorem position_axis_formula_witness :
    calculate_position cfgBR 100 100 10 10 =
      ((amended_axis (min 100 100) 100 10 2,
        amended_axis (min 100 100) 100 10 2), cfgBR) :=
  position_axis_formula cfgBR 100 100 10 10 2 2 "right" "bottom"
    (by decide)

/-- Claim C8 (amended): provided the configured position is one of the
nine recognized anchors (which the CLI parser guarantees via choices),
no operation of the watermarker modifies any field of the
configuration; `calculate_size` cannot touch it at all.  Without that
proviso the claim fails: `_calculate_position` overwrites an
unrecognized position with "bottom-right" (`config_position_mutated_cex`). -/
theorem config_read_only (cfg : Config) (pal : ℤ → Pix) (quantP : Pix → ℤ)
    (cov : ℕ → ℕ → ℤ) (text_w text_h : ℤ)
    (resizeF : Img → ℕ → ℕ → ℕ → ℕ → Pix) (asset : Option Img)
    (img : Img) (src : Option Img) (w h : ℕ) (ww wh : ℤ)
    (hpos : (POSITIONS.lookup cfg.position).isSome = true) :
    (calculate_position cfg w h ww wh).2 = cfg ∧
    (add_text_watermark cfg pal cov text_w text_h img).2 = cfg ∧
    (add_image_watermark cfg pal resizeF asset img).2 = cfg ∧
    (process_image cfg pal quantP cov text_w text_h resizeF asset src).2
      = cfg := by
  obtain ⟨⟨xf, yf, ha, hv⟩, hl⟩ := Option.isSome_iff_exists.mp hpos
  have hcp : ∀ (w h : ℕ) (ww wh : ℤ),
      (calculate_position cfg w h ww wh).2 = cfg := by
    intro w h ww wh
    rw [calculate_position_eval cfg w h ww wh xf yf ha hv hl]
  have hat : ∀ (tw th : ℤ) (im : Img),
      (add_text_watermark cfg pal cov tw th im).2 = cfg := by
    intro tw th im
    simp only [add_text_watermark]
    exact hcp _ _ _ _
  have hai : ∀ im, (add_image_watermark cfg pal resizeF asset im).2 = cfg := by
    intro im
    cases asset with
    | none => rfl
    | some wm0 =>
      simp only [add_image_watermark]
      by_cases h0 : (convert_to_rgba pal wm0).height = 0
      · rw [if_pos h0]
      · rw [if_neg h0]
        show (calculate_position cfg im.width im.height
            (resize_dims (calculate_size cfg im.width im.height)
              (convert_to_rgba pal wm0).width
              (convert_to_rgba pal wm0).height).1
            (resize_dims (calculate_size cfg im.width im.height)
              (convert_to_rgba pal wm0).width
              (convert_to_rgba pal wm0).height).2).2 = cfg
        exact hcp _ _ _ _
  refine ⟨hcp w h ww wh, hat text_w text_h img, hai img, ?_⟩
  cases src with
  | none => rfl
  | some image =>
    simp only [process_image]
    by_cases h1 : cfg.text ≠ ""
    · rw [if_pos h1]
      exact hat text_w text_h
        (if image.mode ≠ Mode.RGBA then convert_to_rgba pal image else image)
    · rw [if_neg h1]
      by_cases h2 : cfg.image_path ≠ ""
      · rw [if_pos h2]
        exact hai
          (if image.mode ≠ Mode.RGBA then convert_to_rgba pal image
            else image)
      · rw [if_neg h2]

/-- Witness for `config_read_only`: the bottom-right anchor leaves the
concrete configuration untouched through every operation. -/
theorem config_read_only_witness :
    (calculate_position cfgBR 100 100 10 10).2 = cfgBR ∧
    (add_text_watermark cfgBR pal0 cov0 10 10 img1).2 = cfgBR ∧
    (add_image_watermark cfgBR pal0 resize0 none img1).2 = cfgBR ∧
    (process_image cfgBR pal0 quant0 cov0 10 10 resize0 none
        (some img1)).2 = cfgBR :=
  config_read_only cfgBR pal0 quant0 cov0 10 10 resize0 none img1
    (some img1) 100 100 10 10 (by decide)

/-! ### Claim C9 -/

/-- Claim C9 (counterexample): the resized shorter side is truncated,
not rounded to nearest (10 / 1.5 = 6.67 becomes 6, not 7), and is not
clamped to 1 (a 100×1 watermark at size 10 resizes to height 0). -/
theorem resize_round_clamp_cex :
    resize_dims 10 3 2 = (10, 6) ∧ claim_resize 10 3 2 = (10, 7) ∧
    resize_dims 10 100 1 = (10, 0) ∧ claim_resize 10 100 1 = (10, 1) := by
  refine ⟨by decide, ?_, by decide, ?_⟩
  · unfold claim_resize
    norm_num [round_eq]
  · unfold claim_resize
    norm_num [round_eq]

/-- Claim C9 (amended): the resize maps the longer side of a w×h
watermark to the computed size s ≥ 0 and the shorter side to the
truncated proportional value floor(s * short / long), with no lower
clamp (the result may be 0). -/
theorem resize_aspect (s : ℤ) (ow oh : ℕ) (hs : 0 ≤ s) (how : 0 < ow)
    (hoh : 0 < oh) :
    resize_dims s ow oh =
      if oh < ow then (s, ⌊((s : ℚ) * (oh : ℚ)) / ((ow : ℕ) : ℚ)⌋)
      else (⌊((s : ℚ) * (ow : ℚ)) / ((oh : ℕ) : ℚ)⌋, s) := by
  unfold resize_dims
  by_cases hlt : oh < ow
  · rw [if_pos hlt, if_pos hlt]
    have hq : ((s : ℚ) * (oh : ℚ)) / ((ow : ℕ) : ℚ)
        = ((s * (oh : ℤ) : ℤ) : ℚ) / ((ow : ℕ) : ℚ) := by
      push_cast
      ring
    rw [hq, Rat.floor_intCast_div_natCast,
      Int.tdiv_eq_ediv (by positivity) (by positivity)]
  · rw [if_neg hlt, if_neg hlt]
    have hq : ((s : ℚ) * (ow : ℚ)) / ((oh : ℕ) : ℚ)
        = ((s * (ow : ℤ) : ℤ) : ℚ) / ((oh : ℕ) : ℚ) := by
      push_cast
      ring
    rw [hq, Rat.floor_intCast_div_natCast,
      Int.tdiv_eq_ediv (by positivity) (by positivity)]

/-- Witness for `resize_aspect`: a 4×2 watermark at size 10. -/
theorem resize_aspect_witness :
    resize_dims 10 4 2 =
      if (2 : ℕ) < 4 then
        ((10 : ℤ), ⌊(((10 : ℤ) : ℚ) * ((2 : ℕ) : ℚ)) / (((4 : ℕ) : ℕ) : ℚ)⌋)
      else (⌊(((10 : ℤ) : ℚ) * ((4 : ℕ) : ℚ)) / (((2 : ℕ) : ℕ) : ℚ)⌋, 10) :=
  resize_aspect 10 4 2 (by decide) (by decide) (by decide)

/-! ### Claim C7 -/

/-- Claim C7: color resolution is case-insensitive; "#F00" and
"#FF0000" resolve to the same triple (255, 0, 0) (shorthand nibbles
duplicated); any name not in the fixed table of 12 named colors
resolves to (255, 255, 255); and a '#'-prefixed string of length 4 or
7 that fails hex parsing falls back to the name lookup (which cannot
match a '#'-prefixed string) and then to white. -/
theorem color_resolution :
    resolve_color "#F00" = (255, 0, 0) ∧
    resolve_color "#FF0000" = (255, 0, 0) ∧
    (∀ s : String, resolve_color s = resolve_color (strLower s)) ∧
    (∀ s : String,
      ¬(startsHash (strLower s) = true ∧
        ((strLower s).length = 4 ∨ (strLower s).length = 7)) →
      COLORS.lookup (strLower s) = none →
      resolve_color s = (255, 255, 255)) ∧
    (∀ s : String, startsHash (strLower s) = true →
      ((strLower s).length = 4 ∨ (strLower s).length = 7) →
      hex_triple (strLower s) = none →
      resolve_color s = (255, 255, 255)) := by
  refine ⟨by decide, by decide, ?_, ?_, ?_⟩
  · intro s
    unfold resolve_color
    rw [strLower_idem]
  · intro s hs hn
    unfold resolve_color resolve_lowered
    rw [if_neg hs, hn]
    rfl
  · intro s h1 h2 h3
    unfold resolve_color resolve_lowered
    rw [if_pos ⟨h1, h2⟩, h3, COLORS_lookup_hash (strLower s) h1]
    rfl

/-- Witness for `color_resolution`: an unknown name and a '#'-prefixed
string with non-hex digits both resolve to white. -/
theorem color_resolution_witness :
    resolve_color "sAlmon" = (255, 255, 255) ∧
    resolve_color "#GG0000" = (255, 255, 255) :=
  ⟨color_resolution.2.2.2.1 "sAlmon" (by decide) (by decide),
   color_resolution.2.2.2.2 "#GG0000" (by decide) (by decide) (by decide)⟩

/-! ### Claim C3 -/

theorem calculate_position_cfg_fields (cfg : Config) (w h : ℕ)
    (ww wh : ℤ) :
    (calculate_position cfg w h ww wh).2.opacity = cfg.opacity ∧
    (calculate_position cfg w h ww wh).2.text_color = cfg.text_color := by
  unfold calculate_position
  by_cases hn : (POSITIONS.lookup cfg.position).isNone = true
  · simp only [if_pos hn]
    exact ⟨trivial, trivial⟩
  · simp only [if_neg hn]
    exact ⟨trivial, trivial⟩

theorem Img_ext (a b : Img) (hm : a.mode = b.mode) (hw : a.width = b.width)
    (hh : a.height = b.height) (hp : ∀ x y, a.px x y = b.px x y) :
    a = b := by
  obtain ⟨m1, w1, h1, p1⟩ := a
  obtain ⟨m2, w2, h2, p2⟩ := b
  simp only at hm hw hh hp
  subst hm
  subst hw
  subst hh
  have hfun : p1 = p2 := funext fun x => funext fun y => hp x y
  rw [hfun]

theorem working_mode (pal : ℤ → Pix) (img : Img) :
    (if img.mode ≠ Mode.RGBA then convert_to_rgba pal img else img).mode
      = Mode.RGBA := by
  obtain ⟨m, w, h, p⟩ := img
  cases m <;> rfl

theorem working_wf (pal : ℤ → Pix) (img : Img) (hwf : img.Wf)
    (hpal : ∀ i, (pal i).InRange) :
    (if img.mode ≠ Mode.RGBA then convert_to_rgba pal img else img).Wf := by
  obtain ⟨m, w, h, p⟩ := img
  intro x y
  have hw := hwf x y
  obtain ⟨h1, h2, h3, h4, h5, h6, h7, h8⟩ := hw
  cases m
  · exact ⟨h1, h2, h3, h4, h5, h6, h7, h8⟩
  · exact ⟨h1, h2, h3, h4, h5, h6, (by decide : (0 : ℤ) ≤ 255),
      (by decide : (255 : ℤ) ≤ 255)⟩
  · exact ⟨h1, h2, h1, h2, h1, h2, (by decide : (0 : ℤ) ≤ 255),
      (by decide : (255 : ℤ) ≤ 255)⟩
  · exact hpal _

/-- Claim C3: with opacity 0 the watermarking is a no-op.  On the RGBA
working image both compositors are pixel-level identities: the drawn
text layer is fully transparent (fill alpha int(255 * 0) = 0) and
alpha-composites to no change, and the alpha-scaled watermark has
alpha int(0 * a) = 0 everywhere so the masked paste leaves every pixel
of the source unchanged.  Consequently, whenever a watermark is
configured, `process_image` returns exactly the pure color-mode
round-trip of the input (`no_watermark_result`): the output is
pixel-identical to the input after the unavoidable mode round-trip. -/
theorem opacity_zero_identity (cfg : Config) (pal : ℤ → Pix)
    (quantP : Pix → ℤ) (cov : ℕ → ℕ → ℤ) (text_w text_h : ℤ)
    (resizeF : Img → ℕ → ℕ → ℕ → ℕ → Pix) (asset : Option Img)
    (hop : cfg.opacity = 0) (hpal : ∀ i, (pal i).InRange) :
    (∀ img, img.mode = Mode.RGBA → img.Wf →
      ∀ x y, (add_text_watermark cfg pal cov text_w text_h img).1.px x y
        = img.px x y) ∧
    (∀ img, img.mode = Mode.RGBA → img.Wf →
      ∀ x y, (add_image_watermark cfg pal resizeF asset img).1.px x y
        = img.px x y) ∧
    (∀ img, img.Wf → (cfg.text ≠ "" ∨ cfg.image_path ≠ "") →
      (process_image cfg pal quantP cov text_w text_h resizeF asset
          (some img)).1
        = some (no_watermark_result pal quantP img)) := by
  have part1 : ∀ img : Img, img.mode = Mode.RGBA → img.Wf →
      ∀ x y, (add_text_watermark cfg pal cov text_w text_h img).1.px x y
        = img.px x y := by
    intro img hmode _hwf x y
    have hbase : (if img.mode ≠ Mode.RGBA then convert_to_rgba pal img
        else img) = img := by
      rw [if_neg (by simp [hmode])]
    have hfill : pytrunc (255 *
        (calculate_position cfg img.width img.height text_w
          text_h).2.opacity) = 0 := by
      rw [(calculate_position_cfg_fields cfg _ _ _ _).1, hop, mul_zero,
        pytrunc_zero]
    simp only [add_text_watermark, hbase]
    rw [hfill, blend255_transparent]
    simp [alpha_composite_pix]
  have part2 : ∀ img : Img, img.mode = Mode.RGBA → img.Wf →
      ∀ x y, (add_image_watermark cfg pal resizeF asset img).1.px x y
        = img.px x y := by
    intro img hmode hwf x y
    have hbase : (if img.mode ≠ Mode.RGBA then convert_to_rgba pal img
        else img) = img := by
      rw [if_neg (by simp [hmode])]
    rcases asset with _ | wm0
    · rfl
    · simp only [add_image_watermark]
      by_cases h0 : (convert_to_rgba pal wm0).height = 0
      · rw [if_pos h0]
      · rw [if_neg h0]
        dsimp only
        obtain ⟨hr1, hr2, hg1, hg2, hb1, hb2, ha1, ha2⟩ := hwf x y
        rw [hop, if_pos (by norm_num : (0 : ℚ) < 1), hbase]
        dsimp only
        simp only [zero_mul, pytrunc_zero]
        split_ifs with hr
        · rw [blend255_mask_zero _ _ hr1 hr2,
            blend255_mask_zero _ _ hg1 hg2,
            blend255_mask_zero _ _ hb1 hb2,
            blend255_mask_zero _ _ ha1 ha2]
        · rfl
  refine ⟨part1, part2, ?_⟩
  intro img hwf hcfg
  have hwm := working_mode pal img
  have hww := working_wf pal img hwf hpal
  have htw : (add_text_watermark cfg pal cov text_w text_h
      (if img.mode ≠ Mode.RGBA then convert_to_rgba pal img else img)).1
      = (if img.mode ≠ Mode.RGBA then convert_to_rgba pal img else img) :=
    Img_ext _ _ hwm.symm rfl rfl (part1 _ hwm hww)
  have hiw : (add_image_watermark cfg pal resizeF asset
      (if img.mode ≠ Mode.RGBA then convert_to_rgba pal img else img)).1
      = (if img.mode ≠ Mode.RGBA then convert_to_rgba pal img else img) := by
    rcases asset with _ | wm0
    · rfl
    · refine Img_ext _ _ ?_ ?_ ?_ (part2 _ hwm hww)
      · simp only [add_image_watermark]
        by_cases h0 : (convert_to_rgba pal wm0).height = 0
        · rw [if_pos h0]
        · rw [if_neg h0]
          exact hwm.symm
      · simp only [add_image_watermark]
        by_cases h0 : (convert_to_rgba pal wm0).height = 0
        · rw [if_pos h0]
        · rw [if_neg h0]
      · simp only [add_image_watermark]
        by_cases h0 : (convert_to_rgba pal wm0).height = 0
        · rw [if_pos h0]
        · rw [if_neg h0]
  simp only [process_image]
  by_cases h1 : cfg.text ≠ ""
  · rw [if_pos h1]
    dsimp only
    rw [htw]
    rfl
  · rw [if_neg h1]
    have h2 : cfg.image_path ≠ "" := by
      rcases hcfg with hc | hc
      · exact absurd hc h1
      · exact hc
    rw [if_pos h2]
    dsimp only
    rw [hiw]
    rfl

/-- Witness for `opacity_zero_identity`: an opacity-0 configuration on a
concrete 1×1 RGBA image with a concrete 2×2 watermark asset. -/
theorem opacity_zero_identity_witness :
    (add_text_watermark cfgOp0 pal0 cov0 3 3 img1).1.px 0 0 = img1.px 0 0 ∧
    (process_image cfgOp0 pal0 quant0 cov0 3 3 resize0
        (some ⟨Mode.RGBA, 2, 2, fun _ _ => ⟨1, 1, 1, 255⟩⟩)
        (some img1)).1
      = some (no_watermark_result pal0 quant0 img1) :=
  ⟨(opacity_zero_identity cfgOp0 pal0 quant0 cov0 3 3 resize0
      (some ⟨Mode.RGBA, 2, 2, fun _ _ => ⟨1, 1, 1, 255⟩⟩) rfl
      (fun _ => (by decide : Pix.InRange ⟨0, 0, 0, 255⟩))).1 img1 rfl
      (fun _ _ => (by decide : Pix.InRange ⟨10, 20, 30, 40⟩)) 0 0,
   (opacity_zero_identity cfgOp0 pal0 quant0 cov0 3 3 resize0
      (some ⟨Mode.RGBA, 2, 2, fun _ _ => ⟨1, 1, 1, 255⟩⟩) rfl
      (fun _ => (by decide : Pix.InRange ⟨0, 0, 0, 255⟩))).2.2 img1
      (fun _ _ => (by decide : Pix.InRange ⟨10, 20, 30, 40⟩))
      (Or.inl (by decide))⟩

/-! ### Claim C4 -/

theorem process_image_asset_none (cfg : Config) (pal : ℤ → Pix)
    (quantP : Pix → ℤ) (cov : ℕ → ℕ → ℤ) (text_w text_h : ℤ)
    (resizeF : Img → ℕ → ℕ → ℕ → ℕ → Pix) (img : Img)
    (htext : cfg.text = "") (himg : cfg.image_path ≠ "") :
    process_image cfg pal quantP cov text_w text_h resizeF none (some img)
      = (some (no_watermark_result pal quantP img), cfg) := by
  simp only [process_image]
  rw [if_neg (by simp [htext]), if_pos himg]
  rfl

theorem process_directory_fold (cfg : Config) (pal : ℤ → Pix)
    (quantP : Pix → ℤ) (cov : ℕ → ℕ → ℤ) (text_w text_h : ℤ)
    (resizeF : Img → ℕ → ℕ → ℕ → ℕ → Pix)
    (htext : cfg.text = "") (himg : cfg.image_path ≠ "") :
    ∀ (fs : List Img) (p e : ℕ) (outs : List Img),
      List.foldl
        (fun acc file =>
          let r := process_image acc.2.2.2 pal quantP cov text_w text_h
            resizeF none file
          match r.1 with
          | some w => (acc.1 + 1, acc.2.1, acc.2.2.1 ++ [w], r.2)
          | none => (acc.1, acc.2.1 + 1, acc.2.2.1, r.2))
        (p, e, outs, cfg) (fs.map some)
      = (p + fs.length, e,
          outs ++ fs.map (no_watermark_result pal quantP), cfg) := by
  intro fs
  induction fs with
  | nil =>
    intro p e outs
    simp
  | cons im fs ih =>
    intro p e outs
    have hpi := process_image_asset_none cfg pal quantP cov text_w text_h
      resizeF im htext himg
    simp only [List.map_cons, List.foldl_cons, hpi]
    rw [ih (p + 1) e (outs ++ [no_watermark_result pal quantP im])]
    simp only [Prod.mk.injEq, List.length_cons, List.map_cons]
    refine ⟨by omega, trivial, by simp, trivial⟩

theorem process_directory_graceful (cfg : Config) (pal : ℤ → Pix)
    (quantP : Pix → ℤ) (cov : ℕ → ℕ → ℤ) (text_w text_h : ℤ)
    (resizeF : Img → ℕ → ℕ → ℕ → ℕ → Pix)
    (htext : cfg.text = "") (himg : cfg.image_path ≠ "")
    (files : List Img) :
    process_directory cfg pal quantP cov text_w text_h resizeF none
        (files.map some)
      = (files.length, 0, files.map (no_watermark_result pal quantP),
          cfg) := by
  unfold process_directory
  rw [process_directory_fold cfg pal quantP cov text_w text_h resizeF
    htext himg files 0 0 []]
  simp

/-- Claim C4: on any failure to read or decode the configured watermark
asset, `add_image_watermark` returns the source image unmodified (and
the configuration untouched), and in a batch run every such file is
still written to the output (as the mode round-trip of its working
copy) and counted as processed, with zero errors: the run continues
across every file rather than aborting. -/
theorem asset_failure_graceful (cfg : Config) (pal : ℤ → Pix)
    (quantP : Pix → ℤ) (cov : ℕ → ℕ → ℤ) (text_w text_h : ℤ)
    (resizeF : Img → ℕ → ℕ → ℕ → ℕ → Pix) (files : List Img)
    (htext : cfg.text = "") (himg : cfg.image_path ≠ "") :
    (∀ img, add_image_watermark cfg pal resizeF none img = (img, cfg)) ∧
    (process_directory cfg pal quantP cov text_w text_h resizeF none
        (files.map some)).1 = files.length ∧
    (process_directory cfg pal quantP cov text_w text_h resizeF none
        (files.map some)).2.1 = 0 ∧
    (process_directory cfg pal quantP cov text_w text_h resizeF none
        (files.map some)).2.2.1
      = files.map (no_watermark_result pal quantP) := by
  refine ⟨fun img => rfl, ?_, ?_, ?_⟩ <;>
    rw [process_directory_graceful cfg pal quantP cov text_w text_h
      resizeF htext himg files]

/-- Witness for `asset_failure_graceful`: one file, missing asset. -/
theorem asset_failure_graceful_witness :
    (∀ img, add_image_watermark cfgAsset pal0 resize0 none img
      = (img, cfgAsset)) ∧
    (process_directory cfgAsset pal0 quant0 cov0 0 0 resize0 none
        ([img1].map some)).1 = [img1].length ∧
    (process_directory cfgAsset pal0 quant0 cov0 0 0 resize0 none
        ([img1].map some)).2.1 = 0 ∧
    (process_directory cfgAsset pal0 quant0 cov0 0 0 resize0 none
        ([img1].map some)).2.2.1
      = [img1].map (no_watermark_result pal0 quant0) :=
  asset_failure_graceful cfgAsset pal0 quant0 cov0 0 0 resize0 [img1]
    rfl (by decide)

/-! ### Claim C10 -/

theorem add_text_watermark_image_path (cfg : Config) (path2 : String)
    (pal : ℤ → Pix) (cov : ℕ → ℕ → ℤ) (tw th : ℤ) (im : Img) :
    (add_text_watermark { cfg with image_path := path2 } pal cov tw th
        im).1
      = (add_text_watermark cfg pal cov tw th im).1 := by
  simp only [add_text_watermark, calculate_position]
  by_cases hn : (POSITIONS.lookup cfg.position).isNone = true
  · simp [hn]
  · simp [hn]

/-- Claim C10: when both a non-empty watermark text and a non-empty
watermark image path are configured, `process_image` applies the text
watermark and the image path is ignored: the produced image is the one
produced with the image path cleared.  The image branch is reachable
only when the text is empty/absent. -/
theorem text_precedence (cfg : Config) (pal : ℤ → Pix)
    (quantP : Pix → ℤ) (cov : ℕ → ℕ → ℤ) (text_w text_h : ℤ)
    (resizeF : Img → ℕ → ℕ → ℕ → ℕ → Pix) (asset : Option Img)
    (src : Option Img) (htext : cfg.text ≠ "") :
    (process_image cfg pal quantP cov text_w text_h resizeF asset src).1
      = (process_image { cfg with image_path := "" } pal quantP cov
          text_w text_h resizeF asset src).1 := by
  cases src with
  | none => rfl
  | some image =>
    simp only [process_image]
    rw [if_pos htext,
      if_pos (show ({ cfg with image_path := "" } : Config).text ≠ ""
        from htext)]
    dsimp only
    rw [add_text_watermark_image_path cfg "" pal cov text_w text_h
      (if image.mode ≠ Mode.RGBA then convert_to_rgba pal image
        else image)]

/-- Witness for `text_precedence`: a configuration with both a text and
an image path configured. -/
theorem text_precedence_witness :
    (process_image cfgBoth pal0 quant0 cov0 3 3 resize0 none
        (some img1)).1
      = (process_image { cfgBoth with image_path := "" } pal0 quant0 cov0
          3 3 resize0 none (some img1)).1 :=
  text_precedence cfgBoth pal0 quant0 cov0 3 3 resize0 none (some img1)
    (by decide)
